import Mathlib

/-!
Verification of the SafeMed medication-safety checker's core service layer:
the frontend↔backend mapping service (`mappingService`), the drug-name
matcher of `hybridAnalysisService`, and the server-side risk evaluator that
the mapping layer expects (modelled from the specification where the Python
backend is not part of this repository).

Strings are embedded as Lean `String`; JavaScript numbers as `ℚ`;
optional fields as `Option`; TypeScript string-literal unions as inductives.
-/

namespace SafeMed

/-! ### String helpers

`lowerStr` embeds JavaScript `toLowerCase`, `trimStr` embeds `trim`, and
`containsStr hay pat` embeds `hay.includes(pat)` (substring containment). -/

def charsStartWith : List Char → List Char → Bool
  | _, [] => true
  | [], _ :: _ => false
  | c :: cs, p :: ps => c == p && charsStartWith cs ps

def charsContain : List Char → List Char → Bool
  | [], pat => pat.isEmpty
  | c :: cs, pat => charsStartWith (c :: cs) pat || charsContain cs pat

def lowerStr (s : String) : String := String.mk (s.toList.map Char.toLower)

def trimStr (s : String) : String :=
  String.mk (((s.toList.dropWhile Char.isWhitespace).reverse.dropWhile
      Char.isWhitespace).reverse)

def containsStr (hay pat : String) : Bool := charsContain hay.toList pat.toList

/-! ### Frontend data model (`types.ts`) -/

inductive Gender
  | male
  | female
  | other
  deriving DecidableEq, Repr

structure UserProfile where
  age : Int
  gender : Gender
  weight : ℚ
  height : ℚ
  ethnicity : String
  bloodType : Option String
  conditions : List String
  deriving DecidableEq, Repr

/-! ### Backend data model (`backendService.ts`, matching the Python models) -/

inductive Sex
  | male
  | female
  | unknown
  deriving DecidableEq, Repr

inductive AlcoholUse
  | none
  | light
  | moderate
  | heavy
  deriving DecidableEq, Repr

structure BackendUserProfile where
  age : Int
  sex : Sex
  weight_kg : Option ℚ
  pregnant : Bool
  pregnancy_trimester : Option Nat
  breastfeeding : Bool
  conditions : List String
  current_medications : List String
  allergies : List String
  smoker : Bool
  alcohol_use : AlcoholUse
  egfr : Option ℚ
  potassium : Option ℚ
  heart_rate : Option ℚ
  history_gi_bleed : Bool
  history_mi : Bool
  history_stroke : Bool
  history_arrhythmia : Bool
  history_seizures : Bool
  deriving DecidableEq, Repr

/-! ### `mappingService.mapUserProfileToBackend`

Total function, exactly as in the source: no field is validated and no
error is ever raised; the `gender` union is coerced (Male→male,
Female→female, anything else→unknown) and several backend fields are
hard-coded constants. -/

def mapUserProfileToBackend (profile : UserProfile) : BackendUserProfile :=
  let conditionsLower := profile.conditions.map lowerStr
  { age := profile.age
    sex := match profile.gender with
      | Gender.male => Sex.male
      | Gender.female => Sex.female
      | Gender.other => Sex.unknown
    weight_kg := if profile.weight == 0 then Option.none else Option.some profile.weight
    pregnant := conditionsLower.any (fun c => containsStr c ("pregnan"))
    pregnancy_trimester := Option.none
    breastfeeding := conditionsLower.any
      (fun c => containsStr c ("breastfeed") || containsStr c ("lactation"))
    conditions := profile.conditions
    current_medications := []
    allergies := conditionsLower.filter (fun c => containsStr c ("allerg"))
    smoker := false
    alcohol_use := AlcoholUse.none
    egfr := Option.none
    potassium := Option.none
    heart_rate := Option.none
    history_gi_bleed := conditionsLower.any
      (fun c => containsStr c ("gi bleed") || containsStr c ("ulcer"))
    history_mi := conditionsLower.any
      (fun c => containsStr c ("heart") || containsStr c ("mi") || containsStr c ("infarction"))
    history_stroke := conditionsLower.any (fun c => containsStr c ("stroke"))
    history_arrhythmia := conditionsLower.any
      (fun c => containsStr c ("arrhythmia") || containsStr c ("afib") || containsStr c ("atrial"))
    history_seizures := conditionsLower.any
      (fun c => containsStr c ("seizure") || containsStr c ("epilep")) }

/-! ### Backend assessment data model (`backendService.ts`) -/

inductive RiskLevel
  | safe
  | caution
  | warning
  | danger
  | contraindicated
  deriving DecidableEq, Repr

/-- Position of a risk level in the ordered scale safe < caution < warning <
danger < contraindicated. -/
def levelRank : RiskLevel → Nat
  | RiskLevel.safe => 0
  | RiskLevel.caution => 1
  | RiskLevel.warning => 2
  | RiskLevel.danger => 3
  | RiskLevel.contraindicated => 4

inductive Severity
  | low
  | medium
  | high
  | critical
  deriving DecidableEq, Repr

structure BackendHardStop where
  type : String
  reason : String
  detail : String
  severity : String
  deriving DecidableEq, Repr

structure BackendWarning where
  type : String
  reason : Option String
  factor : Option String
  detail : Option String
  interacting_drug : Option String
  effect : Option String
  mechanism : Option String
  recommendation : Option String
  severity : Option String
  risk_multiplier : Option ℚ
  deriving DecidableEq, Repr

structure BackendSideEffect where
  name : String
  base_severity : String
  personalized_frequency : ℚ
  risk_multiplier : ℚ
  relevant_factors : List String
  deriving DecidableEq, Repr

structure DetailedBreakdown where
  contraindication_score : ℚ
  interaction_score : ℚ
  demographic_score : ℚ
  condition_score : ℚ
  total_score : ℚ
  factors : List String
  deriving DecidableEq, Repr

structure BackendRiskAssessment where
  drug_name : String
  overall_risk_level : RiskLevel
  risk_score : ℚ
  can_take : Bool
  hard_stops : List BackendHardStop
  warnings : List BackendWarning
  cautions : List BackendWarning
  personalized_side_effects : List BackendSideEffect
  recommended_max_dose : Option String
  monitoring_required : List String
  alternatives_to_consider : List String
  detailed_breakdown : DetailedBreakdown
  deriving DecidableEq, Repr

/-! ### JavaScript helpers used by `mappingService` -/

/-- JavaScript `a || b` on an optional string: `undefined` and the empty
string are falsy. -/
def jsOrStr (a : Option String) (b : String) : String :=
  match a with
  | Option.some s => if s.isEmpty then b else s
  | Option.none => b

/-- JavaScript truthiness of an optional string. -/
def jsTruthyStr (a : Option String) : Bool :=
  match a with
  | Option.some s => !s.isEmpty
  | Option.none => false

/-- `Number.prototype.toFixed(1)`, modelled with exact rational rounding
(the source applies it to IEEE doubles; no claim depends on the digits). -/
def toFixed1 (x : ℚ) : String :=
  let t : ℤ := round (x * 10)
  toString (t / 10) ++ "." ++ toString (t % 10).natAbs

/-- `Array.prototype.join(', ')`. -/
def joinComma (xs : List String) : String := String.intercalate (", ") xs

/-! ### `mappingService` severity mappings -/

def mapMultiplierToSeverity (multiplier : ℚ) : Severity :=
  if multiplier ≥ 3 then Severity.critical
  else if multiplier ≥ 2 then Severity.high
  else if multiplier ≥ 3/2 then Severity.medium
  else Severity.low

def mapRiskLevelToSeverity (level : RiskLevel) : Severity :=
  match level with
  | RiskLevel.contraindicated => Severity.critical
  | RiskLevel.danger => Severity.critical
  | RiskLevel.warning => Severity.high
  | RiskLevel.caution => Severity.medium
  | RiskLevel.safe => Severity.low

/-! ### `mappingService.generateSummary` -/

def riskLevelText : RiskLevel → String
  | RiskLevel.safe => "appears safe for your profile"
  | RiskLevel.caution => "may be used with some caution"
  | RiskLevel.warning => "has notable concerns for your health profile"
  | RiskLevel.danger => "poses significant risks given your health profile"
  | RiskLevel.contraindicated => "is not recommended for you"

def generateSummary (assessment : BackendRiskAssessment) : String :=
  let s := assessment.drug_name ++ " " ++ riskLevelText assessment.overall_risk_level ++ ". "
  let s :=
    if assessment.hard_stops.length > 0 then
      s ++ "There " ++ (if assessment.hard_stops.length == 1 then "is" else "are") ++ " " ++
        toString assessment.hard_stops.length ++ " contraindication(s) to be aware of. "
    else if assessment.warnings.length > 0 then
      s ++ "There " ++ (if assessment.warnings.length == 1 then "is" else "are") ++ " " ++
        toString assessment.warnings.length ++ " warning(s) to consider. "
    else if assessment.cautions.length > 0 then
      s ++ "Minor precautions apply based on your profile. "
    else
      s ++ "No major concerns were identified based on available data. "
  trimStr s

/-! ### `mappingService.generateRecommendation` -/

def generateRecommendation (assessment : BackendRiskAssessment) : String :=
  if assessment.can_take = false then
    if assessment.alternatives_to_consider.length > 0 then
      "Do not take this medication. Consider these alternatives: " ++
        joinComma (assessment.alternatives_to_consider.take 2) ++
        ". Consult your healthcare provider."
    else
      "Do not take this medication. Please consult your healthcare provider for safer alternatives."
  else
    match assessment.recommended_max_dose with
    | Option.some dose =>
      let recText := "You may take this medication. Recommended: " ++ dose
      if assessment.monitoring_required.length > 0 then
        recText ++ ". Monitor: " ++ joinComma (assessment.monitoring_required.take 2)
      else recText
    | Option.none =>
      if assessment.overall_risk_level = RiskLevel.warning then
        "Use with caution and consult your healthcare provider before taking."
      else if assessment.overall_risk_level = RiskLevel.caution then
        "Generally safe to use, but follow package directions and stop if you experience adverse effects."
      else
        "This medication appears safe for you. Follow standard dosing guidelines."

/-! ### `mappingService.mapRiskAssessmentToAnalysisResult` -/

structure RiskFactor where
  condition : String
  probability : String
  severity : Severity
  explanation : String
  deriving DecidableEq, Repr

structure AnalysisResult where
  drugName : String
  safetyScore : ℚ
  summary : String
  risks : List RiskFactor
  contraindications : List String
  alternatives : Option (List String)
  recommendation : String
  references : List String
  deriving DecidableEq, Repr

def mapRiskAssessmentToAnalysisResult (assessment : BackendRiskAssessment) : AnalysisResult :=
  let safetyScore := max 0 (min 100 (100 - assessment.risk_score))
  let risks0 : List RiskFactor := assessment.personalized_side_effects.map (fun se =>
    { condition := se.name
      probability := toFixed1 (se.personalized_frequency * 100) ++ "%"
      severity := mapMultiplierToSeverity se.risk_multiplier
      explanation :=
        if se.relevant_factors.length > 0 then
          "Risk elevated due to: " ++ joinComma se.relevant_factors
        else "Based on medication profile" })
  let risks : List RiskFactor := assessment.warnings.foldl (fun acc w =>
    let condition := jsOrStr w.reason (jsOrStr w.factor (jsOrStr w.interacting_drug ("Warning")))
    let explanation := jsOrStr w.detail (jsOrStr w.effect (jsOrStr w.mechanism ("")))
    if acc.any (fun r => r.condition == condition) then acc
    else acc ++ [{ condition := condition
                   probability := "Elevated"
                   severity := Severity.high
                   explanation := explanation }]) risks0
  let contraindications : List String :=
    assessment.hard_stops.map (fun hs => hs.reason ++ ": " ++ hs.detail) ++
    (assessment.warnings.filter
        (fun w => w.type == "drug_interaction" && jsTruthyStr w.interacting_drug)).map
      (fun w => "Drug interaction with " ++ w.interacting_drug.getD ("") ++ ": " ++
        jsOrStr w.effect (jsOrStr w.detail ("Use caution")))
  let alternatives0 := assessment.alternatives_to_consider
  let alternatives :=
    if alternatives0.length == 0 && safetyScore < 50 then
      if containsStr (lowerStr assessment.drug_name) ("ibuprofen") ||
          containsStr (lowerStr assessment.drug_name) ("aspirin") then
        alternatives0 ++ [("Acetaminophen (Tylenol)"), ("Topical creams"), ("Heat/ice therapy")]
      else alternatives0
    else alternatives0
  { drugName := assessment.drug_name
    safetyScore := safetyScore
    summary := generateSummary assessment
    risks := risks.take 10
    contraindications := contraindications
    alternatives := if alternatives.length > 0 then Option.some alternatives else Option.none
    recommendation := generateRecommendation assessment
    references := [("SIDER 4.1 - Side Effect Resource"), ("FDA Drug Label Database"),
      ("Clinical Pharmacology Guidelines")] }

/-! ### `hybridAnalysisService.findMatchingDrug`

The source closes over a module-level `availableDrugs` cache; here the list
is an explicit argument. -/

def brandMappings : List (String × String) :=
  [(("advil"), ("ibuprofen")),
   (("motrin"), ("ibuprofen")),
   (("nurofen"), ("ibuprofen")),
   (("brufen"), ("ibuprofen")),
   (("ventolin"), ("salbutamol")),
   (("proventil"), ("salbutamol")),
   (("albuterol"), ("salbutamol"))]

def findMatchingDrug (availableDrugs : List String) (drugText : String) : Option String :=
  if availableDrugs.isEmpty then Option.none
  else
    let normalized := lowerStr (trimStr drugText)
    if availableDrugs.contains normalized then Option.some normalized
    else
      match availableDrugs.find?
          (fun drug => containsStr normalized drug || containsStr drug normalized) with
      | Option.some drug => Option.some drug
      | Option.none =>
        match brandMappings.find?
            (fun bg => containsStr normalized bg.1 && availableDrugs.contains bg.2) with
        | Option.some bg => Option.some bg.2
        | Option.none => Option.none

/-! ### Server-side risk evaluator

The Python backend reached through `POST /api/v1/assess` is not part of this
repository; only its API client (`backendService.ts`) and the specification
describe it. The definitions below model that missing engine from §3–§4.2 of
the specification. -/

/-- Modelled from the spec: a ContraindicationRule of the missing backend
engine — a predicate over the patient profile plus reason/detail strings;
evaluating true is an absolute hard stop. -/
structure ContraindicationRule where
  rule_type : String
  pred : BackendUserProfile → Bool
  reason : String
  detail : String

/-- Modelled from the spec: the predicate of an InteractionRule of the
missing backend engine — condition-based, demographic-based, or
drug-list-based (matching against `current_medications`). -/
inductive InteractionPredicate
  | condition (pred : BackendUserProfile → Bool)
  | demographic (pred : BackendUserProfile → Bool)
  | drugList (drugs : List String)

/-- Modelled from the spec: an InteractionRule of the missing backend
engine — a predicate plus a risk multiplier (> 1.0) and descriptive text. -/
structure InteractionRule where
  predicate : InteractionPredicate
  risk_multiplier : ℚ
  reason : String
  detail : String
  effect : String
  mechanism : String

/-- Modelled from the spec: a per-side-effect risk factor of the missing
backend engine (side effects carry their own factor lists). -/
structure SideEffectFactor where
  name : String
  pred : BackendUserProfile → Bool
  multiplier : ℚ

/-- Modelled from the spec: a Knowledge-Base side effect of the missing
backend engine, with base frequency in [0,1] and its own factor list. -/
structure SideEffect where
  name : String
  base_severity : String
  base_frequency : ℚ
  factors : List SideEffectFactor

/-- Modelled from the spec: a Knowledge-Base DrugRecord of the missing
backend engine. -/
structure DrugRecord where
  drug_name : String
  aliases : List String
  contraindication_rules : List ContraindicationRule
  interaction_rules : List InteractionRule
  side_effects : List SideEffect
  recommended_max_dose : Option String
  monitoring_required : List String
  alternatives_to_consider : List String

/-- Modelled from the spec: evaluation of an InteractionRule predicate of
the missing backend engine against a profile; drug-list rules match when a
listed drug appears in `current_medications`. -/
def evalInteractionRule (profile : BackendUserProfile) (r : InteractionRule) : Bool :=
  match r.predicate with
  | InteractionPredicate.condition f => f profile
  | InteractionPredicate.demographic f => f profile
  | InteractionPredicate.drugList drugs =>
    drugs.any (fun d => profile.current_medications.contains d)

/-- Modelled from the spec: the interacting drug name carried by a matched
drug-list rule of the missing backend engine. -/
def interactingDrugOf (profile : BackendUserProfile) (r : InteractionRule) : Option String :=
  match r.predicate with
  | InteractionPredicate.drugList drugs =>
    drugs.find? (fun d => profile.current_medications.contains d)
  | _ => Option.none

/-- Modelled from the spec: §4.2 step 2 of the missing backend engine — a
matched rule with risk_multiplier ≥ 2.0 becomes a "warning", lower
multipliers become a "caution". -/
def isWarningMultiplier (m : ℚ) : Bool := m ≥ 2

def severityName : Severity → String
  | Severity.low => "Low"
  | Severity.medium => "Medium"
  | Severity.high => "High"
  | Severity.critical => "Critical"

/-- Modelled from the spec: the hard-stop record emitted by the missing
backend engine for a matched ContraindicationRule. -/
def toHardStop (r : ContraindicationRule) : BackendHardStop :=
  { type := r.rule_type
    reason := r.reason
    detail := r.detail
    severity := ("critical") }

/-- Modelled from the spec: the warning/caution record emitted by the
missing backend engine for a matched InteractionRule. -/
def toWarning (profile : BackendUserProfile) (r : InteractionRule) : BackendWarning :=
  { type := match r.predicate with
      | InteractionPredicate.drugList _ => "drug_interaction"
      | InteractionPredicate.demographic _ => "demographic"
      | InteractionPredicate.condition _ => "condition"
    reason := Option.some r.reason
    factor := Option.none
    detail := Option.some r.detail
    interacting_drug := interactingDrugOf profile r
    effect := Option.some r.effect
    mechanism := Option.some r.mechanism
    recommendation := Option.none
    severity := Option.some (severityName (mapMultiplierToSeverity r.risk_multiplier))
    risk_multiplier := Option.some r.risk_multiplier }

/-- Modelled from the spec: §4.2 step 3 of the missing backend engine —
personalized_frequency = base_frequency × product of matched factor
multipliers, clamped to [0,1], with matched factor names recorded. -/
def personalizeSideEffect (profile : BackendUserProfile) (se : SideEffect) : BackendSideEffect :=
  let matched := se.factors.filter (fun f => f.pred profile)
  let mult := matched.foldl (fun acc f => acc * f.multiplier) 1
  { name := se.name
    base_severity := se.base_severity
    personalized_frequency := max 0 (min 1 (se.base_frequency * mult))
    risk_multiplier := mult
    relevant_factors := matched.map (fun f => f.name) }

/-- Modelled from the spec: §4.2 step 4 of the missing backend engine —
age/pregnancy/renal-function-driven demographic adjustment. -/
def demographicScore (profile : BackendUserProfile) : ℚ :=
  (if profile.age ≥ 65 then 10 else 0) +
  (if profile.age ≤ 5 then 10 else 0) +
  (if profile.pregnant then 10 else 0) +
  (match profile.egfr with
   | Option.some e => if e < 60 then 10 else 0
   | Option.none => 0)

/-- Modelled from the spec: §4.2 step 4 of the missing backend engine —
comorbidity count weighting. -/
def conditionScore (profile : BackendUserProfile) : ℚ :=
  2 * profile.conditions.length

/-- Modelled from the spec: §4.2 step 5 of the missing backend engine — any
hard stop ⇒ contraindicated; else risk_score ≥ 70 ⇒ danger; ≥ 40 ⇒ warning;
≥ 15 ⇒ caution; else safe. -/
def riskLevelFromScore (hasHardStop : Bool) (score : ℚ) : RiskLevel :=
  if hasHardStop then RiskLevel.contraindicated
  else if score ≥ 70 then RiskLevel.danger
  else if score ≥ 40 then RiskLevel.warning
  else if score ≥ 15 then RiskLevel.caution
  else RiskLevel.safe

/-- Modelled from the spec: `evaluate(profile, drug)` of the missing
backend engine, following the §4.2 algorithm steps 1–6. -/
def evaluate (drug : DrugRecord) (profile : BackendUserProfile) : BackendRiskAssessment :=
  let hardStopRules := drug.contraindication_rules.filter (fun r => r.pred profile)
  let hard_stops := hardStopRules.map toHardStop
  let matchedInteractions := drug.interaction_rules.filter (evalInteractionRule profile)
  let warningRules := matchedInteractions.filter (fun r => isWarningMultiplier r.risk_multiplier)
  let cautionRules := matchedInteractions.filter (fun r => !isWarningMultiplier r.risk_multiplier)
  let contraindication_score : ℚ := 40 * hard_stops.length
  let interaction_score : ℚ := matchedInteractions.foldl (fun acc r => acc + r.risk_multiplier) 0
  let demographic_score := demographicScore profile
  let condition_score := conditionScore profile
  let total : ℚ := max 0 (min 100
    (contraindication_score + interaction_score + demographic_score + condition_score))
  { drug_name := drug.drug_name
    overall_risk_level := riskLevelFromScore (!hard_stops.isEmpty) total
    risk_score := total
    can_take := hard_stops.isEmpty
    hard_stops := hard_stops
    warnings := warningRules.map (toWarning profile)
    cautions := cautionRules.map (toWarning profile)
    personalized_side_effects := drug.side_effects.map (personalizeSideEffect profile)
    recommended_max_dose := drug.recommended_max_dose
    monitoring_required := drug.monitoring_required
    alternatives_to_consider := drug.alternatives_to_consider
    detailed_breakdown :=
      { contraindication_score := contraindication_score
        interaction_score := interaction_score
        demographic_score := demographic_score
        condition_score := condition_score
        total_score := total
        factors := hardStopRules.map (fun r => r.reason) ++
          matchedInteractions.map (fun r => r.reason) } }

/-! ### Specification-side formulations for refinement claims -/

/-- The recommendation decision procedure as the specification words it:
`can_take = false` ⇒ instruct against taking, listing up to 2 alternatives
when any exist, otherwise instruct to consult a provider; `can_take = true`
with a max dose ⇒ state the dose plus up to 2 monitoring items; otherwise
risk-level-appropriate generic guidance. -/
def recommendationPerSpec (a : BackendRiskAssessment) : String :=
  if a.can_take = false then
    if a.alternatives_to_consider.isEmpty then
      "Do not take this medication. Please consult your healthcare provider for safer alternatives."
    else
      "Do not take this medication. Consider these alternatives: " ++
        joinComma (a.alternatives_to_consider.take 2) ++ ". Consult your healthcare provider."
  else
    match a.recommended_max_dose with
    | Option.some dose =>
      if a.monitoring_required.isEmpty then
        "You may take this medication. Recommended: " ++ dose
      else
        "You may take this medication. Recommended: " ++ dose ++ ". Monitor: " ++
          joinComma (a.monitoring_required.take 2)
    | Option.none =>
      match a.overall_risk_level with
      | RiskLevel.warning =>
        "Use with caution and consult your healthcare provider before taking."
      | RiskLevel.caution =>
        "Generally safe to use, but follow package directions and stop if you experience adverse effects."
      | _ =>
        "This medication appears safe for you. Follow standard dosing guidelines."

/-- The summary's trailing clause as a function of the three list counts
alone, chosen with priority hard_stops > warnings > cautions > default, as
the specification words it. -/
def summaryClauseOfCounts (nh nw nc : Nat) : String :=
  if nh > 0 then
    "There " ++ (if nh == 1 then "is" else "are") ++ " " ++ toString nh ++
      " contraindication(s) to be aware of. "
  else if nw > 0 then
    "There " ++ (if nw == 1 then "is" else "are") ++ " " ++ toString nw ++
      " warning(s) to consider. "
  else if nc > 0 then
    "Minor precautions apply based on your profile. "
  else
    "No major concerns were identified based on available data. "

/-- The summary as the specification words it: drug name, the
controlled-vocabulary phrase for the risk level, then the count-based
clause. -/
def summaryPerSpec (a : BackendRiskAssessment) : String :=
  trimStr (a.drug_name ++ " " ++ riskLevelText a.overall_risk_level ++ ". " ++
    summaryClauseOfCounts a.hard_stops.length a.warnings.length a.cautions.length)

/-! ### List helpers -/

theorem isEmpty_false_of_mem {α : Type} {l : List α} {a : α} (h : a ∈ l) :
    l.isEmpty = false := by
  cases l with
  | nil => cases h
  | cons x xs => rfl

theorem contains_true_of_mem {l : List String} {a : String} (h : a ∈ l) :
    l.contains a = true := by
  show l.elem a = true
  exact List.elem_eq_true_of_mem h

theorem not_mem_of_contains_false {l : List String} {a : String}
    (h : l.contains a = false) : a ∉ l := by
  intro hmem
  rw [contains_true_of_mem hmem] at h
  cases h

/-! ### Concrete fixtures for witnesses and counterexamples -/

/-- A raw frontend profile with a negative age. -/
def negativeAgeProfile : UserProfile :=
  { age := -5
    gender := Gender.other
    weight := 70
    height := 170
    ethnicity := ""
    bloodType := Option.none
    conditions := [] }

/-- A raw frontend profile with one condition string that matches the
keyword sets of two distinct history flags. -/
def multiFlagProfile : UserProfile :=
  { age := 40
    gender := Gender.female
    weight := 60
    height := 165
    ethnicity := ""
    bloodType := Option.none
    conditions := [("Heart Arrhythmia")] }

/-- Modelled from the spec: a pregnancy-trimester-2/3 contraindication rule
of the missing backend engine (§8 scenario). -/
def pregnancyRule : ContraindicationRule :=
  { rule_type := "pregnancy"
    pred := fun profile => profile.pregnant &&
      (profile.pregnancy_trimester == Option.some 2 ||
       profile.pregnancy_trimester == Option.some 3)
    reason := "Pregnancy (2nd/3rd trimester)"
    detail := "Avoid in the second and third trimesters." }

/-- Modelled from the spec: a Knowledge-Base record carrying the pregnancy
contraindication rule of the missing backend engine. -/
def testDrug : DrugRecord :=
  { drug_name := "ibuprofen"
    aliases := [("advil")]
    contraindication_rules := [pregnancyRule]
    interaction_rules := []
    side_effects := []
    recommended_max_dose := Option.some ("400mg")
    monitoring_required := []
    alternatives_to_consider := [] }

/-- A canonical backend profile: pregnant, second trimester. -/
def pregnantProfile : BackendUserProfile :=
  { age := 30
    sex := Sex.female
    weight_kg := Option.some 65
    pregnant := true
    pregnancy_trimester := Option.some 2
    breastfeeding := false
    conditions := [("pregnancy")]
    current_medications := []
    allergies := []
    smoker := false
    alcohol_use := AlcoholUse.none
    egfr := Option.none
    potassium := Option.none
    heart_rate := Option.none
    history_gi_bleed := false
    history_mi := false
    history_stroke := false
    history_arrhythmia := false
    history_seizures := false }

def emptyBreakdown : DetailedBreakdown :=
  { contraindication_score := 0
    interaction_score := 0
    demographic_score := 0
    condition_score := 0
    total_score := 0
    factors := [] }

/-- A backend assessment with risk_score 65 and no hard stop (safetyScore
35, level warning). -/
def midRiskAssessment : BackendRiskAssessment :=
  { drug_name := "ibuprofen"
    overall_risk_level := RiskLevel.warning
    risk_score := 65
    can_take := true
    hard_stops := []
    warnings := []
    cautions := []
    personalized_side_effects := []
    recommended_max_dose := Option.none
    monitoring_required := []
    alternatives_to_consider := []
    detailed_breakdown := emptyBreakdown }

/-- A backend assessment carrying 12 personalized side effects and no
warnings. -/
def manySideEffectsAssessment : BackendRiskAssessment :=
  { drug_name := "ibuprofen"
    overall_risk_level := RiskLevel.caution
    risk_score := 20
    can_take := true
    hard_stops := []
    warnings := []
    cautions := []
    personalized_side_effects := (List.range 12).map (fun i =>
      { name := "effect " ++ toString i
        base_severity := "mild"
        personalized_frequency := 1/10
        risk_multiplier := 1
        relevant_factors := [] })
    recommended_max_dose := Option.none
    monitoring_required := []
    alternatives_to_consider := []
    detailed_breakdown := emptyBreakdown }

/-- A supported-drugs list on which partial matching intercepts the brand
name "advil" before alias resolution. -/
def interceptingDrugList : List String := [("vil"), ("ibuprofen"), ("salbutamol")]

/-- The backend's actual supported-drugs list. -/
def standardDrugList : List String := [("ibuprofen"), ("salbutamol")]

/-! ## Claims -/

/-- C1: for every patient profile and every Knowledge-Base drug for which at
least one ContraindicationRule predicate evaluates to true against the
profile, the resulting RiskAssessment has can_take = false and
overall_risk_level = contraindicated, regardless of the magnitude of
risk_score, and the matched rule appears in hard_stops without being
suppressed by any other logic. -/
theorem C1_hard_stop_dominance (drug : DrugRecord) (profile : BackendUserProfile)
    (r : ContraindicationRule) (hmem : r ∈ drug.contraindication_rules)
    (hpred : r.pred profile = true) :
    (evaluate drug profile).can_take = false ∧
    (evaluate drug profile).overall_risk_level = RiskLevel.contraindicated ∧
    toHardStop r ∈ (evaluate drug profile).hard_stops := by
  have hmemf : r ∈ drug.contraindication_rules.filter (fun rr => rr.pred profile) :=
    List.mem_filter.mpr ⟨hmem, hpred⟩
  have hmemh : toHardStop r ∈
      (drug.contraindication_rules.filter (fun rr => rr.pred profile)).map toHardStop :=
    List.mem_map_of_mem _ hmemf
  have hne : (drug.contraindication_rules.filter (fun rr => rr.pred profile)).map toHardStop
      ≠ [] := List.ne_nil_of_mem hmemh
  have hempty : ((drug.contraindication_rules.filter
      (fun rr => rr.pred profile)).map toHardStop).isEmpty = false := by
    cases he : ((drug.contraindication_rules.filter
        (fun rr => rr.pred profile)).map toHardStop).isEmpty with
    | false => rfl
    | true => exact absurd (List.isEmpty_iff.mp he) hne
  refine ⟨?_, ?_, ?_⟩ <;>
    simp [evaluate, riskLevelFromScore, hempty, hmemh]

/-- Witness for C1 at a concrete pregnancy-contraindicated drug and a
pregnant (trimester 2) profile. -/
theorem C1_hard_stop_dominance_witness :
    pregnancyRule ∈ testDrug.contraindication_rules ∧
    pregnancyRule.pred pregnantProfile = true ∧
    ((evaluate testDrug pregnantProfile).can_take = false ∧
     (evaluate testDrug pregnantProfile).overall_risk_level = RiskLevel.contraindicated ∧
     toHardStop pregnancyRule ∈ (evaluate testDrug pregnantProfile).hard_stops) :=
  ⟨by simp [testDrug], rfl,
    C1_hard_stop_dominance testDrug pregnantProfile pregnancyRule (by simp [testDrug]) rfl⟩

/-- C3 counterexample: the claim says a raw profile with negative age makes
mapUserProfileToBackend fail with a ValidationError instead of producing a
canonical profile; in fact the function is total and, at this concrete
profile with age −5, produces a backend profile carrying age −5. -/
theorem C3_counterexample :
    negativeAgeProfile.age < 0 ∧
    mapUserProfileToBackend negativeAgeProfile =
      { age := -5
        sex := Sex.unknown
        weight_kg := Option.some 70
        pregnant := false
        pregnancy_trimester := Option.none
        breastfeeding := false
        conditions := []
        current_medications := []
        allergies := []
        smoker := false
        alcohol_use := AlcoholUse.none
        egfr := Option.none
        potassium := Option.none
        heart_rate := Option.none
        history_gi_bleed := false
        history_mi := false
        history_stroke := false
        history_arrhythmia := false
        history_seizures := false } :=
  ⟨by decide, by decide⟩

/-- C3 amended: mapUserProfileToBackend never validates or fails — for
every raw profile it totally produces a backend profile, passing age
through unchanged (negative ages included), fixing alcohol_use to none, and
coercing gender Male→male, Female→female and anything else→unknown. -/
theorem C3_no_validation (p : UserProfile) :
    (mapUserProfileToBackend p).age = p.age ∧
    (mapUserProfileToBackend p).alcohol_use = AlcoholUse.none ∧
    (mapUserProfileToBackend p).sex =
      (match p.gender with
        | Gender.male => Sex.male
        | Gender.female => Sex.female
        | Gender.other => Sex.unknown) :=
  ⟨rfl, rfl, rfl⟩

/-- C4: each derived history flag equals a case-insensitive substring match
of the condition strings against that flag's fixed keyword set with OR
semantics — history_mi is true iff some condition contains "heart", "mi" or
"infarction" — and a single condition string ("Heart Arrhythmia") sets two
flags at once. -/
theorem C4_history_flags_keyword_match :
    (∀ p : UserProfile,
      ((mapUserProfileToBackend p).history_mi = true ↔
        ∃ c ∈ p.conditions, (containsStr (lowerStr c) ("heart") = true ∨
          containsStr (lowerStr c) ("mi") = true ∨
          containsStr (lowerStr c) ("infarction") = true)) ∧
      ((mapUserProfileToBackend p).history_gi_bleed = true ↔
        ∃ c ∈ p.conditions, (containsStr (lowerStr c) ("gi bleed") = true ∨
          containsStr (lowerStr c) ("ulcer") = true)) ∧
      ((mapUserProfileToBackend p).history_stroke = true ↔
        ∃ c ∈ p.conditions, containsStr (lowerStr c) ("stroke") = true) ∧
      ((mapUserProfileToBackend p).history_arrhythmia = true ↔
        ∃ c ∈ p.conditions, (containsStr (lowerStr c) ("arrhythmia") = true ∨
          containsStr (lowerStr c) ("afib") = true ∨
          containsStr (lowerStr c) ("atrial") = true)) ∧
      ((mapUserProfileToBackend p).history_seizures = true ↔
        ∃ c ∈ p.conditions, (containsStr (lowerStr c) ("seizure") = true ∨
          containsStr (lowerStr c) ("epilep") = true))) ∧
    ((mapUserProfileToBackend multiFlagProfile).history_mi = true ∧
     (mapUserProfileToBackend multiFlagProfile).history_arrhythmia = true) := by
  constructor
  · intro p
    refine ⟨?_, ?_, ?_, ?_, ?_⟩ <;>
      simp [mapUserProfileToBackend, List.any_map, List.any_eq_true,
        Function.comp, Bool.or_eq_true, or_assoc]
  · exact ⟨by decide, by decide⟩

/-- C5: the backend profile produced by mapUserProfileToBackend always has
current_medications = [], smoker = false, alcohol_use = none, no pregnancy
trimester and no lab values, so a drug-list-based interaction rule can
never match a profile coming from this frontend. -/
theorem C5_hardcoded_backend_fields (p : UserProfile) (ds : List String) (m : ℚ)
    (sreason sdetail seffect smechanism : String) :
    (mapUserProfileToBackend p).current_medications = [] ∧
    (mapUserProfileToBackend p).smoker = false ∧
    (mapUserProfileToBackend p).alcohol_use = AlcoholUse.none ∧
    (mapUserProfileToBackend p).pregnancy_trimester = Option.none ∧
    (mapUserProfileToBackend p).egfr = Option.none ∧
    (mapUserProfileToBackend p).potassium = Option.none ∧
    (mapUserProfileToBackend p).heart_rate = Option.none ∧
    evalInteractionRule (mapUserProfileToBackend p)
      { predicate := InteractionPredicate.drugList ds
        risk_multiplier := m
        reason := sreason
        detail := sdetail
        effect := seffect
        mechanism := smechanism } = false := by
  refine ⟨rfl, rfl, rfl, rfl, rfl, rfl, rfl, ?_⟩
  simp [evalInteractionRule, mapUserProfileToBackend, List.any_eq_false]

/-- C10: the frontend AnalysisResult contains at most 10 risk entries for
every assessment; at a concrete assessment with 12 personalized side
effects, exactly 10 survive and the rest are dropped. -/
theorem C10_risks_capped_at_ten :
    (∀ a : BackendRiskAssessment,
      (mapRiskAssessmentToAnalysisResult a).risks.length ≤ 10) ∧
    manySideEffectsAssessment.personalized_side_effects.length = 12 ∧
    (mapRiskAssessmentToAnalysisResult manySideEffectsAssessment).risks.length = 10 := by
  refine ⟨?_, ?_, ?_⟩
  · intro a
    simp only [mapRiskAssessmentToAnalysisResult]
    exact List.length_take_le 10 _
  · simp [manySideEffectsAssessment]
  · simp [mapRiskAssessmentToAnalysisResult, manySideEffectsAssessment]

/-- C2: for every assessment with risk_score in [0,100] the frontend
computes safetyScore = 100 − risk_score (the clamp is inactive on this
range), and the inversion is consistent with the §4.2 step-5 thresholds:
whenever safetyScore < 40, the risk level derived from the score and the
hard stops is at least warning. -/
theorem C2_safety_score_inversion (a : BackendRiskAssessment)
    (h0 : 0 ≤ a.risk_score) (h1 : a.risk_score ≤ 100) :
    (mapRiskAssessmentToAnalysisResult a).safetyScore = 100 - a.risk_score ∧
    ((mapRiskAssessmentToAnalysisResult a).safetyScore < 40 →
      levelRank RiskLevel.warning ≤
        levelRank (riskLevelFromScore (!a.hard_stops.isEmpty) a.risk_score)) := by
  have heq : (mapRiskAssessmentToAnalysisResult a).safetyScore = 100 - a.risk_score := by
    show max 0 (min 100 (100 - a.risk_score)) = 100 - a.risk_score
    rw [min_eq_right (by linarith), max_eq_right (by linarith)]
  refine ⟨heq, ?_⟩
  intro hlt
  rw [heq] at hlt
  unfold riskLevelFromScore
  cases hb : !a.hard_stops.isEmpty with
  | true => simp [levelRank]
  | false =>
    by_cases h70 : a.risk_score ≥ 70
    · simp [h70, levelRank]
    · have h40 : a.risk_score ≥ 40 := by linarith
      simp [h70, h40, levelRank]

/-- Witness for C2 at a concrete assessment with risk_score 65 and no hard
stop: safetyScore is 35 and the derived level is warning. -/
theorem C2_safety_score_inversion_witness :
    (0 ≤ midRiskAssessment.risk_score ∧ midRiskAssessment.risk_score ≤ 100) ∧
    ((mapRiskAssessmentToAnalysisResult midRiskAssessment).safetyScore =
        100 - midRiskAssessment.risk_score ∧
     ((mapRiskAssessmentToAnalysisResult midRiskAssessment).safetyScore < 40 →
       levelRank RiskLevel.warning ≤
         levelRank (riskLevelFromScore (!midRiskAssessment.hard_stops.isEmpty)
           midRiskAssessment.risk_score))) :=
  ⟨⟨by decide, by decide⟩,
   C2_safety_score_inversion midRiskAssessment (by decide) (by decide)⟩

/-- C6: severity is derived from risk_multiplier by exactly the banding
≥3.0 → Critical, ≥2.0 → High, ≥1.5 → Medium, else Low, and a matched rule
with multiplier ≥ 2.0 is a "warning" (High or Critical band) while a lower
multiplier is a "caution". -/
theorem C6_multiplier_severity_banding (m : ℚ) :
    (mapMultiplierToSeverity m = Severity.critical ↔ 3 ≤ m) ∧
    (mapMultiplierToSeverity m = Severity.high ↔ 2 ≤ m ∧ m < 3) ∧
    (mapMultiplierToSeverity m = Severity.medium ↔ 3/2 ≤ m ∧ m < 2) ∧
    (mapMultiplierToSeverity m = Severity.low ↔ m < 3/2) ∧
    (isWarningMultiplier m = true ↔ 2 ≤ m) ∧
    (isWarningMultiplier m = true ↔
      (mapMultiplierToSeverity m = Severity.high ∨
       mapMultiplierToSeverity m = Severity.critical)) := by
  by_cases h3 : m ≥ 3 <;> by_cases h2 : m ≥ 2 <;> by_cases h15 : m ≥ 3/2 <;>
    first
      | (exfalso; linarith)
      | (simp [mapMultiplierToSeverity, isWarningMultiplier, h3, h2, h15] <;> linarith)

/-- C8: for every assessment, the synthesized recommendation equals the
specification's decision procedure: can_take = false ⇒ advise against
taking, listing up to 2 alternatives when any exist, else advise consulting
a provider; can_take = true with a max dose ⇒ state the dose plus up to 2
monitoring items; otherwise the risk-level-appropriate generic guidance. -/
theorem C8_recommendation_decision_order (a : BackendRiskAssessment) :
    generateRecommendation a = recommendationPerSpec a := by
  rcases a with ⟨dn, lvl, rs, ct, hs, ws, cs, pse, dose, mon, alts, db⟩
  unfold generateRecommendation recommendationPerSpec
  dsimp only
  cases ct <;> cases dose <;> cases alts <;> cases mon <;> cases lvl <;>
    simp [List.isEmpty]

/-- C9: every synthesized summary names the drug with the
controlled-vocabulary phrase for its risk level followed by the
count-based clause chosen with priority hard_stops > warnings > cautions >
default, and each risk level's phrase carries the specified vocabulary. -/
theorem C9_summary_structure :
    (∀ a : BackendRiskAssessment, generateSummary a = summaryPerSpec a) ∧
    containsStr (riskLevelText RiskLevel.safe) ("appears safe") = true ∧
    containsStr (riskLevelText RiskLevel.caution) ("may be used with some caution") = true ∧
    containsStr (riskLevelText RiskLevel.warning) ("has notable concerns") = true ∧
    containsStr (riskLevelText RiskLevel.danger) ("poses significant risks") = true ∧
    containsStr (riskLevelText RiskLevel.contraindicated) ("is not recommended") = true := by
  have e1 : ∀ s : String, (". " : String) ++ (("There ") ++ s) = (". There ") ++ s := by
    intro s
    rw [← String.append_assoc]
    rfl
  refine ⟨?_, by decide, by decide, by decide, by decide, by decide⟩
  intro a
  by_cases h1 : a.hard_stops.length > 0 <;> by_cases h2 : a.warnings.length > 0 <;>
    by_cases h3 : a.cautions.length > 0 <;>
    simp [generateSummary, summaryPerSpec, summaryClauseOfCounts, h1, h2, h3,
      String.append_assoc, e1]

/-- C7 counterexample: the claim quantifies over every supported-drugs list
containing "ibuprofen" and "salbutamol", but on the list
["vil", "ibuprofen", "salbutamol"] the partial-match pass resolves "advil"
to "vil" before the brand-alias table is ever consulted. -/
theorem C7_counterexample :
    ("ibuprofen" : String) ∈ interceptingDrugList ∧
    ("salbutamol" : String) ∈ interceptingDrugList ∧
    findMatchingDrug interceptingDrugList ("advil") = Option.some ("vil") ∧
    findMatchingDrug interceptingDrugList ("advil") ≠ Option.some ("ibuprofen") :=
  ⟨by decide, by decide, by decide, by decide⟩

/-- A drug name that is itself a list entry (and already normalized) is
resolved by the direct-match pass. -/
theorem findMatchingDrug_of_mem (L : List String) (d : String) (hmem : d ∈ L)
    (hnorm : lowerStr (trimStr d) = d) : findMatchingDrug L d = Option.some d := by
  unfold findMatchingDrug
  simp [hnorm, hmem, contains_true_of_mem hmem, isEmpty_false_of_mem hmem]

/-- C7 amended: for every supported-drugs list that contains "ibuprofen"
and "salbutamol" and in which no entry is a substring or superstring of
"advil" or of "ventolin", the matcher resolves "advil" to "ibuprofen" and
"ventolin" to "salbutamol", agreeing with the lookup of the generic names —
so brand and generic route to the same canonical drug. -/
theorem C7_brand_alias_resolution (L : List String)
    (hib : ("ibuprofen" : String) ∈ L) (hsal : ("salbutamol" : String) ∈ L)
    (hadv : ∀ e ∈ L, (containsStr ("advil") e || containsStr e ("advil")) = false)
    (hven : ∀ e ∈ L, (containsStr ("ventolin") e || containsStr e ("ventolin")) = false) :
    findMatchingDrug L ("advil") = Option.some ("ibuprofen") ∧
    findMatchingDrug L ("ibuprofen") = Option.some ("ibuprofen") ∧
    findMatchingDrug L ("ventolin") = Option.some ("salbutamol") ∧
    findMatchingDrug L ("salbutamol") = Option.some ("salbutamol") ∧
    findMatchingDrug L ("advil") = findMatchingDrug L ("ibuprofen") ∧
    findMatchingDrug L ("ventolin") = findMatchingDrug L ("salbutamol") := by
  have hLe := isEmpty_false_of_mem hib
  have hcib := contains_true_of_mem hib
  have hcsal := contains_true_of_mem hsal
  have hadvnot : ("advil" : String) ∉ L := by
    intro hmem
    have h := hadv _ hmem
    simp [show containsStr ("advil") ("advil") = true from by decide] at h
  have hvennot : ("ventolin" : String) ∉ L := by
    intro hmem
    have h := hven _ hmem
    simp [show containsStr ("ventolin") ("ventolin") = true from by decide] at h
  have hcadv : L.contains ("advil") = false := by
    cases hc : L.contains ("advil") with
    | false => rfl
    | true =>
      have hc' : L.elem ("advil") = true := hc
      exact absurd (List.mem_of_elem_eq_true hc') hadvnot
  have hcvent : L.contains ("ventolin") = false := by
    cases hc : L.contains ("ventolin") with
    | false => rfl
    | true =>
      have hc' : L.elem ("ventolin") = true := hc
      exact absurd (List.mem_of_elem_eq_true hc') hvennot
  have hfadv : L.find?
      (fun drug => containsStr ("advil") drug || containsStr drug ("advil")) =
      Option.none := by
    rw [List.find?_eq_none]
    intro e he
    simp [hadv e he]
  have hfvent : L.find?
      (fun drug => containsStr ("ventolin") drug || containsStr drug ("ventolin")) =
      Option.none := by
    rw [List.find?_eq_none]
    intro e he
    simp [hven e he]
  have h1 : findMatchingDrug L ("advil") = Option.some ("ibuprofen") := by
    unfold findMatchingDrug
    simp [hLe, show lowerStr (trimStr ("advil")) = ("advil") from by decide,
      hcadv, hfadv, brandMappings, List.find?, hcib, hib, hadvnot,
      show containsStr ("advil") ("advil") = true from by decide]
  have h2 : findMatchingDrug L ("ibuprofen") = Option.some ("ibuprofen") :=
    findMatchingDrug_of_mem L ("ibuprofen") hib (by decide)
  have h3 : findMatchingDrug L ("ventolin") = Option.some ("salbutamol") := by
    unfold findMatchingDrug
    simp [hLe, show lowerStr (trimStr ("ventolin")) = ("ventolin") from by decide,
      hcvent, hfvent, brandMappings, List.find?, hcsal, hsal, hvennot,
      show containsStr ("ventolin") ("advil") = false from by decide,
      show containsStr ("ventolin") ("motrin") = false from by decide,
      show containsStr ("ventolin") ("nurofen") = false from by decide,
      show containsStr ("ventolin") ("brufen") = false from by decide,
      show containsStr ("ventolin") ("ventolin") = true from by decide]
  have h4 : findMatchingDrug L ("salbutamol") = Option.some ("salbutamol") :=
    findMatchingDrug_of_mem L ("salbutamol") hsal (by decide)
  exact ⟨h1, h2, h3, h4, by rw [h1, h2], by rw [h3, h4]⟩

/-- Witness for C7 at the backend's actual supported-drugs list
["ibuprofen", "salbutamol"]. -/
theorem C7_brand_alias_resolution_witness :
    (("ibuprofen" : String) ∈ standardDrugList ∧
     ("salbutamol" : String) ∈ standardDrugList ∧
     (∀ e ∈ standardDrugList,
       (containsStr ("advil") e || containsStr e ("advil")) = false) ∧
     (∀ e ∈ standardDrugList,
       (containsStr ("ventolin") e || containsStr e ("ventolin")) = false)) ∧
    (findMatchingDrug standardDrugList ("advil") = Option.some ("ibuprofen") ∧
     findMatchingDrug standardDrugList ("ibuprofen") = Option.some ("ibuprofen") ∧
     findMatchingDrug standardDrugList ("ventolin") = Option.some ("salbutamol") ∧
     findMatchingDrug standardDrugList ("salbutamol") = Option.some ("salbutamol") ∧
     findMatchingDrug standardDrugList ("advil") =
       findMatchingDrug standardDrugList ("ibuprofen") ∧
     findMatchingDrug standardDrugList ("ventolin") =
       findMatchingDrug standardDrugList ("salbutamol")) :=
  ⟨⟨by decide, by decide, by decide, by decide⟩,
   C7_brand_alias_resolution standardDrugList (by decide) (by decide) (by decide) (by decide)⟩

end SafeMed
